import Mathlib

/-!
# Verification of the Steam ACF generator pipeline (`generate_acf_colab.py`)

A shallow embedding of the script `src/generate_acf_colab.py`.  Pure string
processing (the identifier normalizer, the filename matching of the verifier)
is translated directly.  Effectful code (downloads, archive extraction, the
Wine compatibility-layer check, subprocess invocation) is modelled by explicit
environment records describing the outcomes of the external world — every
`shutil.which` probe, subprocess exit, and exception site of the source gets a
field — and by an explicit trace of boundary `Event`s (network downloads,
archive extraction, package-manager runs, launches of the external tool).
-/

namespace AcfGen

/-- Observable boundary events of one run: an invocation of `download_file`
with the given url, a call to `extract_zip`, an invocation of the `apt-get`
package manager (the update-then-install sequence of `ensure_wine`, which
retrieves packages over the network), and a `subprocess.run` launch of the
external generator tool, optionally prefixed by a compatibility-layer
command (`wine` / `wine64`). -/
inductive Event where
  | download (url : String)
  | extractArchive
  | aptGet
  | runTool (wrap : Option String)
deriving DecidableEq, Repr

/-- `True` for the events that perform network activity: `download_file`
calls and the package-manager update/install sequence. -/
def Event.isNetwork : Event → Bool
  | .download _ => true
  | .aptGet => true
  | _ => false

/-- `True` exactly for launches of the external tool. -/
def Event.isRunTool : Event → Bool
  | .runTool _ => true
  | _ => false

/-- `True` exactly for `download_file` invocations. -/
def Event.isDownload : Event → Bool
  | .download _ => true
  | _ => false

/-- `PRIMARY_URL` from the script configuration. -/
def PRIMARY_URL : String :=
  "https://github.com/Sak32009/SKSAppManifestGenerator/releases/download/v2.0.3/SKSAppManifestGenerator_x64_v2.0.3.zip"

/-- `FALLBACK_URL` from the script configuration. -/
def FALLBACK_URL : String :=
  "https://github.com/ahmed98Osama/Steam-acf-generator/raw/master/SKSAppManifestGenerator_x64.exe"

/-- `TOOL_NAME` from the script configuration. -/
def TOOL_NAME : String := "SKSAppManifestGenerator_x64.exe"

/-- `TOOL_PATH = os.path.join(TOOL_DIR, TOOL_NAME)` from the script
configuration. -/
def TOOL_PATH : String := "./tools/SKSAppManifestGenerator/" ++ TOOL_NAME

/-! ## Identifier normalizer -/

/-- The test `'0' <= ch <= '9'` of `extract_digits_only`. -/
def isAsciiDigit (c : Char) : Bool := '0' ≤ c && c ≤ '9'

/-- `convert_to_ascii_digits` (lines 236-247).  The oracle
`dec : Char → Option Nat` models `unicodedata.decimal`: `some v` when the
lookup succeeds with decimal value `v`, `none` when it raises.  A character
with a decimal value is replaced by `chr(ord('0') + v)`; every other
character is kept unchanged.  (The `if not text` shortcut of the source is
the `[]` case of `List.map`.) -/
def convert_to_ascii_digits (dec : Char → Option Nat) (text : List Char) : List Char :=
  text.map (fun ch =>
    match dec ch with
    | some v => Char.ofNat ('0'.toNat + v)
    | none => ch)

/-- The scanning loop of `extract_digits_only` (lines 256-264): `current` is
the accumulator of the run being built; a digit extends it, a non-digit
flushes it when non-empty, and a trailing run is flushed at end of input. -/
def tokenScan : List Char → List Char → List (List Char)
  | [], current => if current = [] then [] else [current]
  | ch :: rest, current =>
    if isAsciiDigit ch then tokenScan rest (current ++ [ch])
    else if current = [] then tokenScan rest []
    else current :: tokenScan rest []

/-- `extract_digits_only` (lines 250-265): normalize the text, then scan it
into maximal digit runs. -/
def extract_digits_only (dec : Char → Option Nat) (text : List Char) : List (List Char) :=
  if text = [] then [] else tokenScan (convert_to_ascii_digits dec text) []

/-- `validate_app_ids` (lines 268-272).  `isSpace` models the character
class stripped by Python's `str.strip()`: the guard
`not app_ids_input or not app_ids_input.strip()` holds exactly when the
input is empty or all-whitespace. -/
def validate_app_ids (dec : Char → Option Nat) (isSpace : Char → Bool)
    (input : List Char) : List (List Char) :=
  if input = [] ∨ input.all isSpace then [] else extract_digits_only dec input

/-- Modelled from the spec words of §4.1: "emit the maximal runs of
consecutive ASCII digits as tokens in left-to-right order, flushing a
trailing run at end of input".  Used as the independent characterization
that `extract_digits_only`'s scan is compared against. -/
def spec_digitRuns (cs : List Char) : List (List Char) :=
  match cs with
  | [] => []
  | c :: rest =>
    if isAsciiDigit c then
      (c :: rest.takeWhile isAsciiDigit) :: spec_digitRuns (rest.dropWhile isAsciiDigit)
    else spec_digitRuns rest
termination_by cs.length
decreasing_by
  all_goals simp_wf
  all_goals exact Nat.lt_succ_of_le (List.dropWhile_sublist isAsciiDigit).length_le

/-! ## Filesystem walk and the verifier -/

/-- One step of `os.walk`: a directory path together with the plain files it
contains, in listing order. -/
structure DirEntry where
  root : String
  files : List String
deriving DecidableEq, Repr

/-- `os.walk` of a directory tree, modelled as the sequence of
`(root, files)` pairs in traversal order. -/
abbrev Walk := List DirEntry

/-- `os.path.join(root, name)`. -/
def joinPath (root name : String) : String := root ++ "/" ++ name

/-- The set `{f"appmanifest_{app_id}.acf", f"{app_id}.acf"}` built per
identifier by `generate_acf_files` (line 362). -/
def targetNames (appId : String) : List String :=
  ["appmanifest_" ++ appId ++ ".acf", appId ++ ".acf"]

/-- The per-identifier search of `generate_acf_files` (lines 363-371): walk
the tree in order; in each directory take the first file whose name is in
`target_names`; stop at the first directory containing a match. -/
def searchWalk (appId : String) : Walk → Option String
  | [] => none
  | e :: rest =>
    match e.files.find? (fun n => (targetNames appId).contains n) with
    | some n => some (joinPath e.root n)
    | none => searchWalk appId rest

/-- The accumulation loop of `generate_acf_files` over `app_ids`
(lines 360-371): for each identifier in order, append the discovered path
when the walk found one, and move on silently otherwise. -/
def check_generated_files (walk : Walk) : List String → List String
  | [] => []
  | i :: rest =>
    match searchWalk i walk with
    | some p => p :: check_generated_files walk rest
    | none => check_generated_files walk rest

/-- Modelled from the spec words of §4.7: the acceptable output filenames
for identifier `id` are exactly `appmanifest_<id>.acf` and `<id>.acf`. -/
def spec_isTargetName (appId n : String) : Bool :=
  n == "appmanifest_" ++ appId ++ ".acf" || n == appId ++ ".acf"

/-- Modelled from the spec words of §4.7: all matching paths of the tree in
traversal order (directory order first, in-directory listing order second).
Its head is "the first matching path found for that identifier". -/
def spec_matchPaths (appId : String) : Walk → List String
  | [] => []
  | e :: rest =>
    (e.files.filter (spec_isTargetName appId)).map (joinPath e.root)
      ++ spec_matchPaths appId rest

/-- `find_executable` (lines 159-164): walk the extracted tree and return
the first directory's copy of `TOOL_NAME`. -/
def find_executable : Walk → Option String
  | [] => none
  | e :: rest =>
    if e.files.contains TOOL_NAME then some (joinPath e.root TOOL_NAME)
    else find_executable rest

/-! ## Retriever (`download_file`, lines 70-139) -/

/-- Which download strategy produced a successful return. -/
inductive Strat where
  | wgetS
  | curlS
  | httpS
deriving DecidableEq, Repr

/-- Outcome of the strategy-3 `requests` streaming fetch (lines 117-136):
`earlyFail` — an exception before the destination file is opened
(connection error, `raise_for_status`, ...), leaving the destination
untouched; `bodyDone size` — the whole body was written (`size` bytes) and
the function returns; `midFail written` — an exception after `written`
bytes were already written to the destination. -/
inductive ReqOutcome where
  | earlyFail
  | bodyDone (size : Nat)
  | midFail (written : Nat)
deriving DecidableEq, Repr

/-- One external-downloader attempt (wget, lines 74-92, or curl, lines
94-114): whether `shutil.which` found the binary, the subprocess exit code,
and the size of the `.part` side file it left (`none` when absent). -/
structure ExtDl where
  available : Bool
  exitCode : Int
  sideFileSize : Option Nat
deriving DecidableEq, Repr

/-- External-world outcomes of one `download_file` call.  `destBefore` is
the size of a file already sitting at `output_path` (`none` when absent). -/
structure DlEnv where
  destBefore : Option Nat
  wget : ExtDl
  curl : ExtDl
  req : ReqOutcome
deriving DecidableEq, Repr

/-- Result of `download_file`: the returned boolean, the state of the file
at `output_path` at return time (its size, `none` when absent), and — as
bookkeeping derived from the control flow — which strategy returned
successfully (`none` when the function returns `False`). -/
structure DlResult where
  ok : Bool
  dest : Option Nat
  via : Option Strat
deriving DecidableEq, Repr

/-- The success test of the wget/curl branches (lines 83, 105):
`proc.returncode == 0 and os.path.exists(tmp_out) and
os.path.getsize(tmp_out) > 0`, in which case the side file of that size is
renamed onto `output_path`.  On any other outcome the side file is removed
and the next strategy runs. -/
def extSuccessSize (d : ExtDl) : Option Nat :=
  if d.available ∧ d.exitCode = 0 then
    match d.sideFileSize with
    | some n => if 0 < n then some n else none
    | none => none
  else none

/-- `download_file` (lines 70-139): try wget, then curl (each writing a
`.part` side file atomically renamed onto the destination on success), then
the `requests` streaming fetch which writes directly to the destination;
any exception of the last is caught and the function returns `False`. -/
def download_file (e : DlEnv) : DlResult :=
  match extSuccessSize e.wget with
  | some n => { ok := true, dest := some n, via := some Strat.wgetS }
  | none =>
    match extSuccessSize e.curl with
    | some n => { ok := true, dest := some n, via := some Strat.curlS }
    | none =>
      match e.req with
      | ReqOutcome.earlyFail => { ok := false, dest := e.destBefore, via := none }
      | ReqOutcome.bodyDone n => { ok := true, dest := some n, via := some Strat.httpS }
      | ReqOutcome.midFail k => { ok := false, dest := some k, via := none }

/-- `True` when the destination file exists with nonzero size. -/
def destNonzero (r : DlResult) : Bool :=
  match r.dest with
  | some n => decide (0 < n)
  | none => false

/-! ## Archive extractor (`extract_zip`, lines 141-157) -/

/-- Classification of an exception thrown by `ZipFile.extractall`:
`RuntimeError` (the class raised for a wrong or missing archive password,
and the only class the inner handler catches) versus anything else. -/
inductive ZipErr where
  | runtimeErr
  | otherErr
deriving DecidableEq, Repr

/-- Outcome of one `extractall` call. -/
inductive ZipOutcome where
  | ok
  | err (e : ZipErr)
deriving DecidableEq, Repr

/-- External-world outcomes of one `extract_zip` call: whether opening the
archive succeeds (`ZipFile(...)` raises otherwise), the outcome of
`extractall(pwd=password)`, and the outcome of `extractall()` without a
password. -/
structure ZipEnv where
  openOk : Bool
  withPwd : ZipOutcome
  noPwd : ZipOutcome
deriving DecidableEq, Repr

/-- `extract_zip` (lines 141-157).  First component: the returned boolean.
Second component (bookkeeping derived from the control flow): whether the
no-password retry of the inner `except RuntimeError` handler ran.  Any
exception not caught by that inner handler reaches the outer
`except Exception` and the function returns `False`. -/
def extract_zip (e : ZipEnv) (password : Bool) : Bool × Bool :=
  if e.openOk = false then (false, false)
  else if password then
    match e.withPwd with
    | ZipOutcome.ok => (true, false)
    | ZipOutcome.err ZipErr.runtimeErr =>
      match e.noPwd with
      | ZipOutcome.ok => (true, true)
      | ZipOutcome.err _ => (false, true)
    | ZipOutcome.err ZipErr.otherErr => (false, false)
  else
    match e.noPwd with
    | ZipOutcome.ok => (true, false)
    | ZipOutcome.err _ => (false, false)

/-! ## Compatibility layer manager (`ensure_wine`, lines 166-190) -/

/-- External-world outcomes of one `ensure_wine` call: the platform test
`'windows' in platform.system().lower()`, the two `shutil.which` probes for
`wine` and `wine64` before the install attempt, whether `apt-get` is on the
path, and the two probes after the install attempt. -/
structure WineEnv where
  isWindows : Bool
  whichWine : Bool
  whichWine64 : Bool
  aptAvailable : Bool
  whichWineAfter : Bool
  whichWine64After : Bool
deriving DecidableEq, Repr

/-- The candidate loop `for candidate in ('wine', 'wine64')`: the first
discoverable command name. -/
def firstWineName (w w64 : Bool) : Option String :=
  if w then some "wine" else if w64 then some "wine64" else none

/-- `ensure_wine` (lines 166-190): a no-op returning `none` on Windows;
otherwise return the first discoverable of `wine`/`wine64`; when neither is
found, run the apt-get update-then-install sequence if `apt-get` exists
(errors swallowed), then re-probe and return the first discoverable
command, or `none`.  The event list records the package-manager
invocation. -/
def ensure_wine (e : WineEnv) : Option String × List Event :=
  if e.isWindows then (none, [])
  else
    match firstWineName e.whichWine e.whichWine64 with
    | some w => (some w, [])
    | none =>
      (firstWineName e.whichWineAfter e.whichWine64After,
        if e.aptAvailable then [Event.aptGet] else [])

/-! ## Tool provisioner (`setup_tool`, lines 192-234) -/

/-- External-world outcomes of one `setup_tool` call: the eager
`ensure_wine` call, whether a file already exists at `TOOL_PATH`, the
outcomes of the primary `download_file` call, of the passworded
`extract_zip` call, the walk of the extracted temporary directory searched
by `find_executable`, and the outcomes of the fallback `download_file`
call. -/
structure ToolEnv where
  wine : WineEnv
  toolExists : Bool
  primaryDl : DlEnv
  zipEnv : ZipEnv
  extractedTree : Walk
  fallbackDl : DlEnv
deriving Repr

/-- `setup_tool` (lines 192-234): eagerly run `ensure_wine` on non-Windows
platforms; return `TOOL_PATH` immediately when a file already exists there;
otherwise download the primary archive, extract it with `ZIP_PASSWORD`,
search for the executable and install it; on any failure of that path, fall
back to downloading the raw binary to `TOOL_PATH`; return `none` when both
sources fail.  The event list records the boundary activity in order. -/
def setup_tool (e : ToolEnv) : Option String × List Event :=
  let wev := if e.wine.isWindows = false then (ensure_wine e.wine).2 else []
  if e.toolExists then (some TOOL_PATH, wev)
  else
    let dlP := download_file e.primaryDl
    let evP := wev ++ [Event.download PRIMARY_URL]
      ++ (if dlP.ok then [Event.extractArchive] else [])
    let primaryHit : Bool :=
      dlP.ok && (extract_zip e.zipEnv true).1 && (find_executable e.extractedTree).isSome
    if primaryHit then (some TOOL_PATH, evP)
    else
      let evF := evP ++ [Event.download FALLBACK_URL]
      if (download_file e.fallbackDl).ok then (some TOOL_PATH, evF)
      else (none, evF)

/-! ## Invoker and verifier (`generate_acf_files`, lines 274-378) -/

/-- Classification of how `subprocess.run` of the tool can fail (the
`except` arms of lines 327-354): `FileNotFoundError`, an `OSError` whose
message does or does not contain `format error` (the `execFormat` flag),
and `subprocess.TimeoutExpired`. -/
inductive RunErr where
  | fileNotFound
  | osErr (execFormat : Bool)
  | timeoutErr
deriving DecidableEq, Repr

/-- Outcome of one `subprocess.run` of the tool: it returned with an exit
code, or it raised. -/
inductive RunOutcome where
  | completed (exitCode : Int)
  | failed (e : RunErr)
deriving DecidableEq, Repr

/-- `True` when the run returned (with any exit code) rather than raised. -/
def RunOutcome.isCompleted : RunOutcome → Bool
  | RunOutcome.completed _ => true
  | RunOutcome.failed _ => false

/-- External-world outcomes of one `generate_acf_files` call: the lazy
`ensure_wine` call (line 304, skipped on Windows), the outcome of the first
`subprocess.run` (line 318), the two `shutil.which` probes of the retry
loop (line 335) and the outcome of the retry run for each candidate
(line 337, any exception being caught by the `except Exception` arm), and
the `os.walk` of the working directory at verification time (line 364). -/
structure GenEnv where
  wineEnv : WineEnv
  firstRun : RunOutcome
  whichRetryWine : Bool
  whichRetryWine64 : Bool
  retryRunWine : RunOutcome
  retryRunWine64 : RunOutcome
  walk : Walk
deriving Repr

/-- The retry candidates of lines 334-348 in loop order: name, whether
`shutil.which` finds it, and the outcome of the retry run with it. -/
def retryCandidates (e : GenEnv) : List (String × Bool × RunOutcome) :=
  [("wine", e.whichRetryWine, e.retryRunWine),
   ("wine64", e.whichRetryWine64, e.retryRunWine64)]

/-- The retry loop of lines 334-348: skip undiscoverable candidates; a
retry that returns (any exit code) breaks the loop; a retry that raises is
caught and the next candidate is tried.  Emits one `runTool` event per
attempted retry. -/
def retryLoop : List (String × Bool × RunOutcome) → List Event
  | [] => []
  | (name, avail, out) :: rest =>
    if avail then
      Event.runTool (some name)
        :: (if out.isCompleted then [] else retryLoop rest)
    else retryLoop rest

/-- Result of one `generate_acf_files` call: whether an exception
propagated out (the re-`raise` of line 352), the records of the
verification phase (`none` exactly when it was never reached), and the
boundary events in order. -/
structure GenResult where
  raised : Bool
  found : Option (List String)
  events : List Event
deriving Repr

/-- `generate_acf_files` (lines 274-378): run `ensure_wine` lazily on
non-Windows platforms and prefix the command with the found layer; run the
tool; a returned exit code (zero or not), a `FileNotFoundError` and a
timeout are all reported and fall through to the verification scan; an
`OSError` is retried via the wine loop when it is an exec-format error with
no layer in use on a non-Windows platform, and re-raised otherwise —
skipping the verification scan. -/
def generate_acf_files (e : GenEnv) (app_ids : List String) : GenResult :=
  let wpair := if e.wineEnv.isWindows = false then ensure_wine e.wineEnv else (none, [])
  let preEvents := wpair.2 ++ [Event.runTool wpair.1]
  match e.firstRun with
  | RunOutcome.completed _ =>
    { raised := false, found := some (check_generated_files e.walk app_ids),
      events := preEvents }
  | RunOutcome.failed RunErr.fileNotFound =>
    { raised := false, found := some (check_generated_files e.walk app_ids),
      events := preEvents }
  | RunOutcome.failed RunErr.timeoutErr =>
    { raised := false, found := some (check_generated_files e.walk app_ids),
      events := preEvents }
  | RunOutcome.failed (RunErr.osErr fmt) =>
    if fmt && wpair.1.isNone && !e.wineEnv.isWindows then
      { raised := false, found := some (check_generated_files e.walk app_ids),
        events := preEvents ++ retryLoop (retryCandidates e) }
    else
      { raised := true, found := none, events := preEvents }

/-- The compatibility-layer command `generate_acf_files` prefixes: the lazy
`ensure_wine` result on non-Windows platforms, `none` on Windows. -/
def wineCmdOf (e : GenEnv) : Option String :=
  (if e.wineEnv.isWindows = false then ensure_wine e.wineEnv else (none, [])).1

/-- `True` when the first run raised an `OSError` that the exec-format
condition of line 332 does not handle, so that line 352 re-raises it. -/
def unhandledOS (e : GenEnv) : Bool :=
  match e.firstRun with
  | RunOutcome.failed (RunErr.osErr fmt) =>
    !(fmt && (wineCmdOf e).isNone && !e.wineEnv.isWindows)
  | _ => false

/-- The tool launches after the first one: the retry attempts. -/
def retryEvents (e : GenEnv) (app_ids : List String) : List Event :=
  ((generate_acf_files e app_ids).events.filter Event.isRunTool).tail

/-! ## `main` (lines 389-447) -/

/-- External-world outcomes of one `main` run: the `setup_tool` call, the
raw identifier text (from `--AppId` or the interactive prompt — both paths
validate it identically), and the `generate_acf_files` call. -/
structure MainEnv where
  tool : ToolEnv
  rawInput : List Char
  gen : GenEnv
deriving Repr

/-- `main` (lines 389-447): provision the tool first, exiting `1` when both
sources fail; then validate the identifier text, exiting `1` when no
identifier survives; then invoke `generate_acf_files` and return normally
(exit `0`) — unless an exception propagates out of it, which terminates the
interpreter with a nonzero status (modelled as `1`).  The CLI and
interactive paths share this structure; the prompts themselves are not
modelled. -/
def main (dec : Char → Option Nat) (isSpace : Char → Bool) (e : MainEnv) :
    Nat × List Event :=
  let setup := setup_tool e.tool
  match setup.1 with
  | none => (1, setup.2)
  | some _ =>
    let app_ids := (validate_app_ids dec isSpace e.rawInput).map (fun cs => String.mk cs)
    if app_ids = [] then (1, setup.2)
    else
      let g := generate_acf_files e.gen app_ids
      ((if g.raised then 1 else 0), setup.2 ++ g.events)

/-! ## Concrete environments used by witnesses and counterexamples -/

/-- The `unicodedata.decimal` oracle restricted to ASCII digits: enough to
exercise the normalizer on concrete ASCII inputs. -/
def decAscii : Char → Option Nat :=
  fun c => if isAsciiDigit c then some (c.toNat - Char.toNat '0') else none

/-- A minimal `str.strip` whitespace class for concrete inputs. -/
def isSpaceChar : Char → Bool := fun c => c == ' '

/-- A download environment in which every strategy fails without touching
the destination. -/
def dlNone : DlEnv :=
  { destBefore := none,
    wget := { available := false, exitCode := 1, sideFileSize := none },
    curl := { available := false, exitCode := 1, sideFileSize := none },
    req := ReqOutcome.earlyFail }

/-- A download environment in which wget succeeds with a 4096-byte file. -/
def dlWgetOk : DlEnv :=
  { destBefore := none,
    wget := { available := true, exitCode := 0, sideFileSize := some 4096 },
    curl := { available := false, exitCode := 0, sideFileSize := none },
    req := ReqOutcome.earlyFail }

/-- A Windows platform: `ensure_wine` is a no-op there. -/
def wineWinEnv : WineEnv :=
  { isWindows := true, whichWine := false, whichWine64 := false,
    aptAvailable := false, whichWineAfter := false, whichWine64After := false }

/-- A non-Windows platform on which wine is never discoverable and
`apt-get` is absent. -/
def wineAbsentEnv : WineEnv :=
  { isWindows := false, whichWine := false, whichWine64 := false,
    aptAvailable := false, whichWineAfter := false, whichWine64After := false }

/-- A non-Windows platform on which wine is never discoverable but
`apt-get` exists, so every `ensure_wine` call runs the package manager. -/
def wineAptEnv : WineEnv :=
  { isWindows := false, whichWine := false, whichWine64 := false,
    aptAvailable := true, whichWineAfter := false, whichWine64After := false }

/-- An invocation environment on Windows whose first run raises a
non-exec-format `OSError`: line 352 re-raises it. -/
def envC2gen : GenEnv :=
  { wineEnv := wineWinEnv, firstRun := RunOutcome.failed (RunErr.osErr false),
    whichRetryWine := false, whichRetryWine64 := false,
    retryRunWine := RunOutcome.completed 0, retryRunWine64 := RunOutcome.completed 0,
    walk := [] }

/-- An invocation environment whose first run succeeds; used as the unused
invocation part of `main` environments. -/
def genDummy : GenEnv :=
  { wineEnv := wineWinEnv, firstRun := RunOutcome.completed 0,
    whichRetryWine := false, whichRetryWine64 := false,
    retryRunWine := RunOutcome.completed 0, retryRunWine64 := RunOutcome.completed 0,
    walk := [] }

/-- A `main` environment: the tool is absent and gets provisioned from the
primary source (a real download), while the identifier text `"abc"`
contains no digit. -/
def envC1main : MainEnv :=
  { tool :=
      { wine := wineWinEnv, toolExists := false, primaryDl := dlWgetOk,
        zipEnv := { openOk := true, withPwd := ZipOutcome.ok, noPwd := ZipOutcome.ok },
        extractedTree := [{ root := "/tmp/sks_generator_extract", files := [TOOL_NAME] }],
        fallbackDl := dlNone },
    rawInput := String.toList "abc",
    gen := genDummy }

/-- All three download strategies fall through to the built-in fetch, which
completes with an empty body: `download_file` returns `True` with a
zero-size destination file. -/
def envC3dl : DlEnv :=
  { destBefore := none,
    wget := { available := false, exitCode := 1, sideFileSize := none },
    curl := { available := false, exitCode := 1, sideFileSize := none },
    req := ReqOutcome.bodyDone 0 }

/-- A download environment in which wget succeeds. -/
def envC3w : DlEnv := dlWgetOk

/-- wget and curl both fail and the built-in fetch dies mid-stream after
writing 5 bytes to the destination. -/
def envC4dl : DlEnv :=
  { destBefore := none,
    wget := { available := true, exitCode := 1, sideFileSize := none },
    curl := { available := true, exitCode := 1, sideFileSize := none },
    req := ReqOutcome.midFail 5 }

/-- All strategies fail before touching a pre-existing destination file. -/
def envC4w : DlEnv :=
  { destBefore := some 7,
    wget := { available := false, exitCode := 1, sideFileSize := none },
    curl := { available := false, exitCode := 1, sideFileSize := none },
    req := ReqOutcome.earlyFail }

/-- The tool already exists at `TOOL_PATH`, but the platform is non-Windows
with wine absent and `apt-get` present: `setup_tool` still runs the
package manager before the existence check. -/
def envC5tool : ToolEnv :=
  { wine := wineAptEnv, toolExists := true, primaryDl := dlNone,
    zipEnv := { openOk := true, withPwd := ZipOutcome.ok, noPwd := ZipOutcome.ok },
    extractedTree := [], fallbackDl := dlNone }

/-- Exec-format error without a layer on a non-Windows platform; both
`wine` and `wine64` are discoverable at retry time and the `wine` retry
itself raises, so the loop attempts `wine64` as well: two retries. -/
def envC6gen : GenEnv :=
  { wineEnv := wineAbsentEnv, firstRun := RunOutcome.failed (RunErr.osErr true),
    whichRetryWine := true, whichRetryWine64 := true,
    retryRunWine := RunOutcome.failed RunErr.timeoutErr,
    retryRunWine64 := RunOutcome.completed 0, walk := [] }

/-- Exec-format error without a layer; the `wine` retry completes, so there
is exactly one retry. -/
def envC6w : GenEnv :=
  { wineEnv := wineAbsentEnv, firstRun := RunOutcome.failed (RunErr.osErr true),
    whichRetryWine := true, whichRetryWine64 := false,
    retryRunWine := RunOutcome.completed 0,
    retryRunWine64 := RunOutcome.completed 0, walk := [] }

/-- A working-directory tree with a single generated manifest file. -/
def walkC10 : Walk := [{ root := "/content", files := ["appmanifest_730.acf"] }]

/-! ## Lemmas about the normalizer -/

theorem tokenScan_eq_digitRuns (cs : List Char) :
    ∀ acc : List Char,
      tokenScan cs acc
        = if acc = [] then spec_digitRuns cs
          else (acc ++ cs.takeWhile isAsciiDigit)
            :: spec_digitRuns (cs.dropWhile isAsciiDigit) := by
  induction cs with
  | nil =>
    intro acc
    by_cases h : acc = [] <;> simp [tokenScan, spec_digitRuns, h]
  | cons c rest ih =>
    intro acc
    by_cases hd : isAsciiDigit c = true
    · by_cases h : acc = []
      · subst h
        simp only [tokenScan, hd, if_true, if_pos rfl, ih (([] : List Char) ++ [c])]
        simp [spec_digitRuns, hd, List.takeWhile_cons, List.dropWhile_cons]
      · simp only [tokenScan, hd, if_true, if_neg h, ih (acc ++ [c])]
        simp [List.takeWhile_cons, List.dropWhile_cons, hd, h]
    · have hd2 : isAsciiDigit c = false := by simpa using hd
      by_cases h : acc = []
      · subst h
        simp only [tokenScan, hd2, if_pos rfl, ih ([] : List Char)]
        simp [spec_digitRuns, hd2]

      · simp only [tokenScan, hd2, if_neg h, ih ([] : List Char)]
        simp [spec_digitRuns, List.takeWhile_cons, List.dropWhile_cons, hd2, h]

theorem tokenScan_nil_acc (cs : List Char) : tokenScan cs [] = spec_digitRuns cs := by
  simpa using tokenScan_eq_digitRuns cs []

theorem tokenScan_tokens (cs : List Char) :
    ∀ acc : List Char, (∀ c ∈ acc, isAsciiDigit c = true) →
      ∀ t ∈ tokenScan cs acc, t ≠ [] ∧ ∀ c ∈ t, isAsciiDigit c = true := by
  induction cs with
  | nil =>
    intro acc hacc t ht
    by_cases h : acc = []
    · simp [tokenScan, h] at ht
    · simp only [tokenScan, if_neg h, List.mem_singleton] at ht
      exact ht ▸ ⟨h, hacc⟩
  | cons c rest ih =>
    intro acc hacc t ht
    by_cases hd : isAsciiDigit c = true
    · rw [tokenScan, if_pos hd] at ht
      refine ih (acc ++ [c]) ?_ t ht
      intro x hx
      rcases List.mem_append.mp hx with h1 | h1
      · exact hacc x h1
      · simpa [List.mem_singleton.mp h1] using hd
    · have hd2 : isAsciiDigit c = false := by simpa using hd
      rw [tokenScan, hd2] at ht
      simp only [Bool.false_eq_true, if_false] at ht
      by_cases h : acc = []
      · rw [if_pos h] at ht
        exact ih [] (by simp) t ht
      · rw [if_neg h] at ht
        rcases List.mem_cons.mp ht with h1 | h1
        · exact h1 ▸ ⟨h, hacc⟩
        · exact ih [] (by simp) t h1

theorem tokenScan_nodigit (cs : List Char)
    (h : ∀ c ∈ cs, isAsciiDigit c = false) : tokenScan cs [] = [] := by
  induction cs with
  | nil => rfl
  | cons c rest ih =>
    have hc := h c (List.mem_cons_self c rest)
    rw [tokenScan, hc]
    simp only [Bool.false_eq_true, if_false, if_pos rfl]
    exact ih (fun x hx => h x (List.mem_cons_of_mem c hx))

theorem convert_id (dec : Char → Option Nat) (input : List Char)
    (h : ∀ c ∈ input, dec c = none) :
    convert_to_ascii_digits dec input = input := by
  induction input with
  | nil => rfl
  | cons c cs ih =>
    simp only [convert_to_ascii_digits, List.map_cons] at ih ⊢
    rw [h c (List.mem_cons_self c cs)]
    exact congrArg (c :: ·) (ih (fun x hx => h x (List.mem_cons_of_mem c hx)))

theorem validate_app_ids_nil (dec : Char → Option Nat) (isSpace : Char → Bool)
    (input : List Char)
    (h : ∀ c ∈ input, dec c = none ∧ isAsciiDigit c = false) :
    validate_app_ids dec isSpace input = [] := by
  unfold validate_app_ids extract_digits_only
  by_cases hg : input = [] ∨ input.all isSpace
  · rw [if_pos hg]
  · rw [if_neg hg]
    by_cases hn : input = []
    · rw [if_pos hn]
    · rw [if_neg hn]
      rw [convert_id dec input (fun c hc => (h c hc).1)]
      exact tokenScan_nodigit input (fun c hc => (h c hc).2)

/-- C7: the normalizer first maps every character with a decimal value to
its ASCII digit, leaving other characters unchanged
(`convert_to_ascii_digits`), then emits the maximal runs of consecutive
ASCII digits in left-to-right order (`spec_digitRuns`, written from the
spec's words); the resulting tokens are non-empty and digit-only, with
order and duplicates preserved (the result IS that run sequence), and an
empty or whitespace-only input yields the empty sequence (the guard of
`validate_app_ids` agrees with the run decomposition because whitespace
characters have no decimal value and are not digits). -/
theorem C7_normalizer (dec : Char → Option Nat) (isSpace : Char → Bool)
    (input : List Char)
    (hspace : ∀ c, isSpace c = true → dec c = none ∧ isAsciiDigit c = false) :
    validate_app_ids dec isSpace input
      = spec_digitRuns (convert_to_ascii_digits dec input)
    ∧ ∀ t ∈ validate_app_ids dec isSpace input,
        t ≠ [] ∧ ∀ c ∈ t, isAsciiDigit c = true := by
  constructor
  · unfold validate_app_ids extract_digits_only
    by_cases hg : input = [] ∨ input.all isSpace
    · rw [if_pos hg]
      rcases hg with hg | hg
      · subst hg
        simp [convert_to_ascii_digits, spec_digitRuns]
      · have hall : ∀ c ∈ input, isSpace c = true := by
          intro c hc
          exact List.all_eq_true.mp hg c hc
        rw [convert_id dec input (fun c hc => (hspace c (hall c hc)).1),
          ← tokenScan_nil_acc]
        exact (tokenScan_nodigit input
          (fun c hc => (hspace c (hall c hc)).2)).symm
    · rw [if_neg hg]
      have hn : ¬ input = [] := fun hx => hg (Or.inl hx)
      rw [if_neg hn]
      exact tokenScan_nil_acc _
  · intro t ht
    unfold validate_app_ids extract_digits_only at ht
    by_cases hg : input = [] ∨ input.all isSpace
    · rw [if_pos hg] at ht
      simp at ht
    · rw [if_neg hg] at ht
      by_cases hn : input = []
      · rw [if_pos hn] at ht; simp at ht
      · rw [if_neg hn] at ht
        exact tokenScan_tokens _ [] (by simp) t ht

/-- Witness for C7 at the concrete input `"abc123def456"`. -/
theorem C7_normalizer_witness :
    validate_app_ids decAscii isSpaceChar (String.toList "abc123def456")
      = spec_digitRuns (convert_to_ascii_digits decAscii (String.toList "abc123def456")) :=
  (C7_normalizer decAscii isSpaceChar (String.toList "abc123def456")
    (fun c hc => by
      simp only [isSpaceChar, beq_iff_eq] at hc
      subst hc
      decide)).1

/-! ## Lemmas about the verifier -/

theorem find_eq_head_filter {α : Type} (p : α → Bool) (l : List α) :
    l.find? p = (l.filter p).head? := by
  induction l with
  | nil => rfl
  | cons a as ih =>
    by_cases h : p a = true
    · rw [List.find?_cons_of_pos _ h, List.filter_cons_of_pos h]
      rfl
    · rw [List.find?_cons_of_neg _ h, List.filter_cons_of_neg h, ih]

theorem targetNames_contains (i n : String) :
    (targetNames i).contains n = spec_isTargetName i n := by
  simp [targetNames, spec_isTargetName, List.contains_cons]
  rfl

theorem searchWalk_eq (i : String) (walk : Walk) :
    searchWalk i walk = (spec_matchPaths i walk).head? := by
  induction walk with
  | nil => rfl
  | cons e rest ih =>
    have hp : (fun n => (targetNames i).contains n) = spec_isTargetName i :=
      funext (targetNames_contains i)
    simp only [searchWalk, spec_matchPaths, hp, find_eq_head_filter,
      List.head?_append]
    cases hfil : (e.files.filter (spec_isTargetName i)) with
    | nil => simpa [hfil] using ih
    | cons n ns => simp [hfil]

/-- C8: the verification scan of `generate_acf_files` returns, for each
identifier in order, the head of the list of all matching paths of the tree
in traversal order — where a path matches exactly when its filename is
`appmanifest_<id>.acf` or `<id>.acf` (`spec_matchPaths`, written from the
spec's words) — and silently skips identifiers whose match list is empty:
the records are exactly the found identifiers with their first discovered
paths. -/
theorem C8_verifier (walk : Walk) (ids : List String) :
    check_generated_files walk ids
      = ids.filterMap (fun i => (spec_matchPaths i walk).head?) := by
  induction ids with
  | nil => rfl
  | cons i rest ih =>
    simp only [check_generated_files, List.filterMap_cons, ← searchWalk_eq, ih]
    cases searchWalk i walk <;> rfl

/-- C10: each occurrence of a duplicated identifier independently
rediscovers the same first-matching path, so the scan emits one record per
occurrence and the reported found-count (2) exceeds the number of distinct
discovered files (1). -/
theorem C10_duplicates (walk : Walk) (i p : String)
    (h : searchWalk i walk = some p) :
    check_generated_files walk [i, i] = [p, p]
    ∧ (check_generated_files walk [i, i]).length = 2
    ∧ (check_generated_files walk [i, i]).dedup.length = 1 := by
  have hc : check_generated_files walk [i, i] = [p, p] := by
    simp [check_generated_files, h]
  refine ⟨hc, by rw [hc]; rfl, ?_⟩
  rw [hc, List.dedup_cons_of_mem (List.mem_singleton_self p)]
  rfl

/-- Witness for C10 on a one-file tree and the duplicated identifier
`"730"`. -/
theorem C10_duplicates_witness :
    (check_generated_files walkC10 ["730", "730"]).length = 2 :=
  (C10_duplicates walkC10 "730" "/content/appmanifest_730.acf" (by decide)).2.1

/-! ## Archive extractor: C9 -/

/-- C9: `extract_zip` returns `True` exactly on the successful extraction
paths — archive opens and either the (optionally passworded) extraction
succeeds, or the passworded extraction raised a `RuntimeError` (the class
of password-related errors) and the no-password retry succeeds; the retry
runs exactly when a password was supplied and the passworded extraction
raised a `RuntimeError`, so an archive that needs no password still
extracts when a password is supplied; every other failure is caught and
yields `False`. -/
theorem C9_extract_zip (e : ZipEnv) (pwd : Bool) :
    ((extract_zip e pwd).1 = true ↔
      e.openOk = true ∧
        ((pwd = true ∧ (e.withPwd = ZipOutcome.ok ∨
            (e.withPwd = ZipOutcome.err ZipErr.runtimeErr ∧ e.noPwd = ZipOutcome.ok)))
          ∨ (pwd = false ∧ e.noPwd = ZipOutcome.ok)))
    ∧ ((extract_zip e pwd).2 = true ↔
      e.openOk = true ∧ pwd = true
        ∧ e.withPwd = ZipOutcome.err ZipErr.runtimeErr) := by
  obtain ⟨o, wp, np⟩ := e
  cases o <;> cases pwd <;>
    rcases wp with _ | (_ | _) <;>
    rcases np with _ | (_ | _) <;>
    simp [extract_zip]

/-! ## Retriever: C3 and C4 -/

theorem extSuccessSize_pos (d : ExtDl) (n : Nat)
    (h : extSuccessSize d = some n) : 0 < n := by
  unfold extSuccessSize at h
  split at h
  · cases hs : d.sideFileSize with
    | none => rw [hs] at h; simp at h
    | some m =>
      rw [hs] at h
      by_cases hm : 0 < m
      · simp [hm] at h
        exact h ▸ hm
      · simp [hm] at h
  · simp at h

/-- C3 counterexample: all external strategies fall through, the built-in
fetch completes with an empty body, and `download_file` returns `True`
although the destination file has size zero — the claimed equivalence
"returns true iff a nonzero-size file exists at the destination" fails. -/
theorem C3_counterexample :
    (download_file envC3dl).ok = true
    ∧ destNonzero (download_file envC3dl) = false := by decide

/-- C3 (amended): whenever `download_file` returns `True` a file exists at
the destination and some strategy succeeded; when that strategy was wget or
curl the file has nonzero size (their success checks require it); the
built-in fetch gives no size guarantee. -/
theorem C3_download_true (e : DlEnv) (h : (download_file e).ok = true) :
    (download_file e).dest.isSome = true
    ∧ (download_file e).via.isSome = true
    ∧ ((download_file e).via = some Strat.wgetS ∨ (download_file e).via = some Strat.curlS →
        destNonzero (download_file e) = true) := by
  cases hw : extSuccessSize e.wget with
  | some n =>
    have hn := extSuccessSize_pos e.wget n hw
    simp [download_file, hw, destNonzero, hn]
  | none =>
    cases hc : extSuccessSize e.curl with
    | some n =>
      have hn := extSuccessSize_pos e.curl n hc
      simp [download_file, hw, hc, destNonzero, hn]
    | none =>
      cases hr : e.req with
      | earlyFail => simp [download_file, hw, hc, hr] at h
      | bodyDone n => simp [download_file, hw, hc, hr, destNonzero]
      | midFail k => simp [download_file, hw, hc, hr] at h

/-- Witness for the amended C3: a successful wget download leaves a file at
the destination. -/
theorem C3_download_true_witness :
    (download_file envC3w).dest.isSome = true :=
  (C3_download_true envC3w (by decide)).1

/-- C4 counterexample: wget and curl fail, the built-in streaming fetch
raises after writing 5 bytes directly to the destination, and
`download_file` returns `False` with that partial file left in place — the
claimed "no partial file remains" fails for strategy 3. -/
theorem C4_counterexample :
    (download_file envC4dl).ok = false
    ∧ envC4dl.destBefore = none
    ∧ (download_file envC4dl).dest = some 5 := by decide

/-- C4 (amended): when every strategy fails, `download_file` returns
`False` and no strategy succeeded; the wget/curl side files never reach the
destination, so the destination is exactly as before — unless the built-in
fetch failed mid-stream, in which case the partially written file (of the
bytes written so far) remains at the destination. -/
theorem C4_download_false (e : DlEnv) (h : (download_file e).ok = false) :
    (download_file e).via = none
    ∧ (download_file e).dest
        = (match e.req with
            | ReqOutcome.midFail k => some k
            | _ => e.destBefore) := by
  cases hw : extSuccessSize e.wget <;>
    cases hc : extSuccessSize e.curl <;>
    cases hr : e.req <;>
    simp [download_file, hw, hc, hr] at h ⊢

/-- Witness for the amended C4: when every strategy fails early the
pre-existing destination file is untouched. -/
theorem C4_download_false_witness : (download_file envC4w).via = none :=
  (C4_download_false envC4w (by decide)).1

/-! ## Compatibility layer and provisioner lemmas -/

theorem ensure_wine_events (w : WineEnv) :
    ∀ ev ∈ (ensure_wine w).2, ev = Event.aptGet := by
  intro ev hev
  unfold ensure_wine at hev
  by_cases hwin : w.isWindows = true
  · rw [if_pos hwin] at hev
    simp at hev
  · rw [if_neg hwin] at hev
    cases hf : firstWineName w.whichWine w.whichWine64 with
    | some x => rw [hf] at hev; simp at hev
    | none =>
      rw [hf] at hev
      by_cases hapt : w.aptAvailable = true
      · rw [if_pos hapt] at hev
        simpa using hev
      · rw [if_neg hapt] at hev
        simp at hev

theorem setup_tool_no_runTool (e : ToolEnv) :
    ∀ ev ∈ (setup_tool e).2, ev.isRunTool = false := by
  intro ev hev
  have hwev : ∀ x ∈ (if e.wine.isWindows = false then (ensure_wine e.wine).2
      else ([] : List Event)), Event.isRunTool x = false := by
    intro x hx
    by_cases hwin : e.wine.isWindows = false
    · rw [if_pos hwin] at hx
      rw [ensure_wine_events e.wine x hx]
      rfl
    · rw [if_neg hwin] at hx
      simp at hx
  simp only [setup_tool] at hev
  by_cases ht : e.toolExists = true
  · rw [if_pos ht] at hev
    exact hwev ev hev
  · rw [if_neg ht] at hev
    by_cases hh : ((download_file e.primaryDl).ok && (extract_zip e.zipEnv true).1
        && (find_executable e.extractedTree).isSome) = true
    · rw [if_pos hh] at hev
      simp only [List.mem_append] at hev
      rcases hev with (h | h) | h
      · exact hwev ev h
      · rw [List.mem_singleton.mp h]; rfl
      · by_cases hdl : (download_file e.primaryDl).ok = true
        · rw [if_pos hdl] at h
          rw [List.mem_singleton.mp h]; rfl
        · rw [if_neg hdl] at h
          simp at h
    · rw [if_neg hh] at hev
      by_cases hfb : (download_file e.fallbackDl).ok = true
      · rw [if_pos hfb] at hev
        simp only [List.mem_append] at hev
        rcases hev with ((h | h) | h) | h
        · exact hwev ev h
        · rw [List.mem_singleton.mp h]; rfl
        · by_cases hdl : (download_file e.primaryDl).ok = true
          · rw [if_pos hdl] at h
            rw [List.mem_singleton.mp h]; rfl
          · rw [if_neg hdl] at h
            simp at h
        · rw [List.mem_singleton.mp h]; rfl
      · rw [if_neg hfb] at hev
        simp only [List.mem_append] at hev
        rcases hev with ((h | h) | h) | h
        · exact hwev ev h
        · rw [List.mem_singleton.mp h]; rfl
        · by_cases hdl : (download_file e.primaryDl).ok = true
          · rw [if_pos hdl] at h
            rw [List.mem_singleton.mp h]; rfl
          · rw [if_neg hdl] at h
            simp at h
        · rw [List.mem_singleton.mp h]; rfl

/-! ## Tool provisioner: C5 -/

/-- C5 counterexample: with the tool already at `TOOL_PATH` but on a
non-Windows platform with wine absent and `apt-get` present, `setup_tool`
still runs the package manager — a subprocess performing network activity —
before returning the existing path, and does so again on every repeated
call with the same environment; the claimed "no network activity" is
false. -/
theorem C5_counterexample :
    envC5tool.toolExists = true
    ∧ (setup_tool envC5tool).1 = some TOOL_PATH
    ∧ (setup_tool envC5tool).2 = [Event.aptGet]
    ∧ (setup_tool envC5tool).2.any Event.isNetwork = true := by decide

/-- C5 (amended): when a file already exists at the configured tool path,
`setup_tool` returns that path without invoking `download_file` or
`extract_zip` — the only boundary activity it may still perform is the
package-manager invocation of the eager wine check, which precedes the
existence test; repeated calls return the same path. -/
theorem C5_tool_exists (e : ToolEnv) (h : e.toolExists = true) :
    (setup_tool e).1 = some TOOL_PATH
    ∧ ∀ ev ∈ (setup_tool e).2, ev = Event.aptGet := by
  constructor
  · simp only [setup_tool, if_pos h]
  · intro ev hev
    simp only [setup_tool, if_pos h] at hev
    by_cases hwin : e.wine.isWindows = false
    · rw [if_pos hwin] at hev
      exact ensure_wine_events e.wine ev hev
    · rw [if_neg hwin] at hev
      simp at hev

/-- Witness for the amended C5. -/
theorem C5_tool_exists_witness : (setup_tool envC5tool).1 = some TOOL_PATH :=
  (C5_tool_exists envC5tool rfl).1

/-! ## Invoker: C2 and C6 -/

/-- C2 counterexample: a first run that raises a non-exec-format `OSError`
reaches the re-`raise` of line 352, so `generate_acf_files` propagates the
exception and never reaches its file-checking phase — the claimed
"verification runs regardless of the invocation's outcome" fails for this
outcome. -/
theorem C2_counterexample :
    envC2gen.firstRun = RunOutcome.failed (RunErr.osErr false)
    ∧ (generate_acf_files envC2gen ["730"]).found = none
    ∧ (generate_acf_files envC2gen ["730"]).raised = true := by decide

/-- C2 (amended): the verification scan runs after the invocation for every
outcome — success, nonzero exit code, spawn failure
(`FileNotFoundError`), exec-format `OSError` handled by the wine retry
condition, and timeout — except when the first run raises an `OSError`
that the exec-format condition of line 332 does not cover (not an
exec-format message, or a layer already in use, or Windows): that one is
re-raised and the file-checking phase is skipped. -/
theorem C2_verifier_runs (e : GenEnv) (ids : List String) :
    (generate_acf_files e ids).found
      = (if unhandledOS e = true then none
          else some (check_generated_files e.walk ids))
    ∧ (generate_acf_files e ids).raised = unhandledOS e := by
  cases hf : e.firstRun with
  | completed rc => simp [generate_acf_files, unhandledOS, hf]
  | failed err =>
    cases err with
    | fileNotFound => simp [generate_acf_files, unhandledOS, hf]
    | timeoutErr => simp [generate_acf_files, unhandledOS, hf]
    | osErr fmt =>
      cases hwin : e.wineEnv.isWindows with
      | true => simp [generate_acf_files, unhandledOS, wineCmdOf, hf, hwin]
      | false =>
        cases fmt with
        | false => simp [generate_acf_files, unhandledOS, wineCmdOf, hf, hwin]
        | true =>
          cases hwc : (ensure_wine e.wineEnv).1 with
          | none =>
            simp [generate_acf_files, unhandledOS, wineCmdOf, hf, hwin, hwc]
          | some w =>
            simp [generate_acf_files, unhandledOS, wineCmdOf, hf, hwin, hwc]

/-! ## Invoker retry loop: C6 -/

theorem retryLoop_all_runTool (l : List (String × Bool × RunOutcome)) :
    ∀ ev ∈ retryLoop l, ev.isRunTool = true := by
  induction l with
  | nil => intro ev hev; simp [retryLoop] at hev
  | cons c rest ih =>
    intro ev hev
    obtain ⟨name, avail, out⟩ := c
    by_cases ha : avail = true
    · rw [retryLoop, if_pos ha] at hev
      rcases List.mem_cons.mp hev with h | h
      · rw [h]; rfl
      · by_cases hco : out.isCompleted = true
        · rw [if_pos hco] at h; simp at h
        · rw [if_neg hco] at h; exact ih ev h
    · rw [retryLoop, if_neg ha] at hev
      exact ih ev hev

theorem retryLoop_filter (l : List (String × Bool × RunOutcome)) :
    (retryLoop l).filter Event.isRunTool = retryLoop l :=
  List.filter_eq_self.mpr (retryLoop_all_runTool l)

theorem ensure_wine_filter_runTool (w : WineEnv) :
    (ensure_wine w).2.filter Event.isRunTool = [] := by
  rw [List.filter_eq_nil_iff]
  intro ev hev
  rw [ensure_wine_events w ev hev]
  simp [Event.isRunTool]

theorem retryEvents_eq (e : GenEnv) (ids : List String)
    (hf : e.firstRun = RunOutcome.failed (RunErr.osErr true))
    (hw : wineCmdOf e = none)
    (hwin : e.wineEnv.isWindows = false) :
    retryEvents e ids = retryLoop (retryCandidates e) := by
  have hw2 : (ensure_wine e.wineEnv).1 = none := by
    simpa [wineCmdOf, hwin] using hw
  unfold retryEvents generate_acf_files
  rw [hf]
  simp [hwin, hw2, List.filter_append, ensure_wine_filter_runTool,
    retryLoop_filter, Event.isRunTool]

/-- C6 counterexample: exec-format error without a layer on a non-Windows
platform, with `wine` discoverable — the retry with `wine` itself raises,
is caught, and the loop goes on to attempt `wine64` as well: the entire
invocation is retried twice, not "exactly once". -/
theorem C6_counterexample :
    envC6gen.firstRun = RunOutcome.failed (RunErr.osErr true)
    ∧ wineCmdOf envC6gen = none
    ∧ envC6gen.wineEnv.isWindows = false
    ∧ envC6gen.whichRetryWine = true
    ∧ retryEvents envC6gen ["10"]
        = [Event.runTool (some "wine"), Event.runTool (some "wine64")] := by
  decide

/-- C6 (amended): on an exec-format `OSError` with no layer in use on a
non-Windows platform, the invocation is retried at most once per
discoverable candidate in order (`wine` then `wine64`): no discoverable
candidate means no retry (only the fatal report); a first retry that
returns (any exit code) is the only retry; a first retry that raises is
followed by one more with `wine64` when that is discoverable; there are
never more than two retries. -/
theorem C6_retry (e : GenEnv) (ids : List String)
    (hf : e.firstRun = RunOutcome.failed (RunErr.osErr true))
    (hw : wineCmdOf e = none)
    (hwin : e.wineEnv.isWindows = false) :
    (e.whichRetryWine = false ∧ e.whichRetryWine64 = false →
      retryEvents e ids = [])
    ∧ (e.whichRetryWine = true ∧ (e.retryRunWine).isCompleted = true →
      retryEvents e ids = [Event.runTool (some "wine")])
    ∧ (e.whichRetryWine = false ∧ e.whichRetryWine64 = true →
      retryEvents e ids = [Event.runTool (some "wine64")])
    ∧ (e.whichRetryWine = true ∧ (e.retryRunWine).isCompleted = false
        ∧ e.whichRetryWine64 = true →
      retryEvents e ids
        = [Event.runTool (some "wine"), Event.runTool (some "wine64")])
    ∧ (retryEvents e ids).length ≤ 2 := by
  rw [retryEvents_eq e ids hf hw hwin]
  refine ⟨?_, ?_, ?_, ?_, ?_⟩
  · rintro ⟨h1, h2⟩
    simp [retryLoop, retryCandidates, h1, h2]
  · rintro ⟨h1, h2⟩
    simp [retryLoop, retryCandidates, h1, h2]
  · rintro ⟨h1, h2⟩
    simp [retryLoop, retryCandidates, h1, h2]
  · rintro ⟨h1, h2, h3⟩
    simp [retryLoop, retryCandidates, h1, h2, h3]
  · cases h1 : e.whichRetryWine <;> cases h2 : e.whichRetryWine64 <;>
      cases h3 : (e.retryRunWine).isCompleted <;>
      simp [retryLoop, retryCandidates, h1, h2, h3]

/-- Witness for the amended C6: the `wine` retry completes, so exactly one
retry happens. -/
theorem C6_retry_witness :
    retryEvents envC6w ["10"] = [Event.runTool (some "wine")] :=
  (C6_retry envC6w ["10"] rfl (by decide) rfl).2.1 ⟨rfl, rfl⟩

/-! ## `main`: C1 -/

/-- C1 counterexample: with the identifier text `"abc"` (no decimal digit)
and the tool initially absent, `main` does exit with status 1 — but only
after `setup_tool` has already run `download_file` on the primary source:
the claimed "no network activity before the nonzero exit" is false, because
provisioning precedes identifier validation in `main`. -/
theorem C1_counterexample :
    (∀ c ∈ envC1main.rawInput, decAscii c = none ∧ isAsciiDigit c = false)
    ∧ (main decAscii isSpaceChar envC1main).1 = 1
    ∧ Event.download PRIMARY_URL ∈ (main decAscii isSpaceChar envC1main).2 := by
  decide

/-- C1 (amended): for every run whose raw identifier text contains no
decimal digit of any script, `main` exits with a nonzero status and the
external tool is never launched (no `runTool` event occurs) — but tool
provisioning, with its possible downloads and package-manager activity,
runs before the identifier check and is not prevented. -/
theorem C1_empty_ids (dec : Char → Option Nat) (isSpace : Char → Bool)
    (e : MainEnv)
    (h : ∀ c ∈ e.rawInput, dec c = none ∧ isAsciiDigit c = false) :
    (main dec isSpace e).1 ≠ 0
    ∧ ∀ ev ∈ (main dec isSpace e).2, ev.isRunTool = false := by
  have hv : validate_app_ids dec isSpace e.rawInput = [] :=
    validate_app_ids_nil dec isSpace e.rawInput h
  simp only [main]
  cases hs : (setup_tool e.tool).1 with
  | none =>
    simp only [hs]
    exact ⟨one_ne_zero, fun ev hev => setup_tool_no_runTool e.tool ev hev⟩
  | some p =>
    simp only [hs, hv, List.map_nil]
    exact ⟨one_ne_zero, fun ev hev => setup_tool_no_runTool e.tool ev hev⟩

/-- Witness for the amended C1. -/
theorem C1_empty_ids_witness : (main decAscii isSpaceChar envC1main).1 ≠ 0 :=
  (C1_empty_ids decAscii isSpaceChar envC1main (by decide)).1

end AcfGen
